import Mathlib

/-!
Verification development for `rqt_lifecycle_manager`.

This file gives a shallow embedding of the logic of
`src/rqt_lifecycle_manager/lifecycle_manager.py` and proves properties of it.
External collaborators (the ROS discovery, state-query and transition
services, and the Qt widgets) are modelled at their interface boundary as
oracles passed in as arguments; everything after the service response is
translated line by line from the Python source.
-/

/-! Model of Python's built-in `sorted` on strings: lexicographic comparison
of the code-point sequences, shorter prefix first.  We use a structural
comparison (rather than Lean's `String.le`) so that it evaluates by kernel
reduction. -/

/-- Lexicographic comparison of two code-point lists, true when the first
list sorts before or equal to the second (Python string `<=`). -/
def charListLe : List Char → List Char → Bool
  | [], _ => true
  | _ :: _, [] => false
  | a :: as, b :: bs =>
    if a.toNat < b.toNat then true
    else if b.toNat < a.toNat then false
    else charListLe as bs

/-- Python string comparison `a <= b` on the underlying character data. -/
def py_str_le (a b : String) : Bool := charListLe a.data b.data

/-- Comparison relation used by the model of Python's `sorted`. -/
def pyLe : String → String → Prop := fun a b => py_str_le a b = true

instance : DecidableRel pyLe := fun _ _ => inferInstanceAs (Decidable (_ = true))

/-- Model of Python's `sorted` on a list of strings (a stable sort with
respect to `pyLe`; the keys it is applied to in this file are distinct). -/
def pySorted (l : List String) : List String := List.insertionSort pyLe l

/-- A `NodeState` namedtuple with fields `name` and `state` (line 33 of the
source); `state` holds the lifecycle state's label string. -/
structure NodeState where
  name : String
  state : String
deriving DecidableEq, Repr

/-- One per-node entry of the mapping returned by `call_get_states`: either
an `Exception` object or a state message carrying a `label`. -/
inductive LcResult where
  | exc (msg : String)
  | state (label : String)
deriving DecidableEq, Repr

/-- Test distinguishing a successful state result from an exception entry
(the source's `isinstance(state, Exception)` check, negated). -/
def LcResult.isState : LcResult → Bool
  | .state _ => true
  | .exc _ => false

/-- Model of `ros2lifecycle.api.call_get_states` at its interface boundary:
the returned dict maps each requested name to the oracle's per-name result
(success or exception), covering every requested name exactly once. -/
def call_get_states (q : String → LcResult) (node_names : List String) :
    List (String × LcResult) :=
  node_names.map fun n => (n, q n)

/-- First loop of `_update_nodes_state` (source lines 128-135): every entry
whose value is an `Exception` is printed to stderr and deleted from the
mapping; the surviving entries are returned. -/
def delete_exceptions (states : List (String × LcResult)) :
    List (String × LcResult) :=
  states.filter fun p => p.2.isState

/-- Keys of a mapping in the order Python's `sorted(states.keys())`
iterates them. -/
def sorted_keys (states : List (String × LcResult)) : List String :=
  pySorted (states.map Prod.fst)

/-- Second loop of `_update_nodes_state` (source lines 138-140): for each
surviving key in sorted order, append a `NodeState` row carrying the
state's `label`. -/
def append_current_states (states : List (String × LcResult)) :
    List NodeState :=
  (sorted_keys (delete_exceptions states)).filterMap fun n =>
    match (delete_exceptions states).lookup n with
    | some (LcResult.state l) => some ⟨n, l⟩
    | _ => none

/-- Body of the per-node loop of `_update_nodes_state` (source lines
125-140): the code calls `call_get_states` with the single-element list
`[lc_node.name]`, then removes exception entries and appends rows. -/
def states_for_node (q : String → LcResult) (n : String) : List NodeState :=
  append_current_states (call_get_states q [n])

/-- The whole of `_update_nodes_state` (source lines 122-142): `_lc_nodes`
is cleared and rebuilt from scratch by iterating `_lc_node_names`. -/
def update_nodes_state (q : String → LcResult) (names : List String) :
    List NodeState :=
  names.flatMap (states_for_node q)

/-- Model of `_list_lc_nodes` (source lines 144-155): on success the
discovered names are returned; a `RuntimeError` from `get_node_names` is
caught, printed, and the empty list is returned in its place. -/
def list_lc_nodes (dir : Except String (List String)) : List String :=
  match dir with
  | Except.ok ns => ns
  | Except.error _ => []

/-- Mutable members `_lc_node_names` and `_lc_nodes` of the plugin
(source lines 67-68); `lc_nodes` is what `_show_lc_nodes` hands to the
table model, i.e. the display snapshot. -/
structure ManagerState where
  lc_node_names : List String
  lc_nodes : List NodeState
deriving DecidableEq, Repr

/-- One tick of `_update_node_list` (source lines 114-120): list the
lifecycle nodes; when the listing differs from `_lc_node_names`, store it
and rebuild `_lc_nodes` via `_update_nodes_state`, otherwise leave the
state untouched. -/
def update_node_list (dir : Except String (List String))
    (q : String → LcResult) (s : ManagerState) : ManagerState :=
  let node_names := list_lc_nodes dir
  if s.lc_node_names ≠ node_names then
    { lc_node_names := node_names, lc_nodes := update_nodes_state q node_names }
  else s

/-- One per-node entry of the mapping returned by `call_change_states`:
either an `Exception` object or the boolean success flag of the change
request. -/
inductive ChangeResult where
  | exc (msg : String)
  | ret (success : Bool)
deriving DecidableEq, Repr

/-- Observable behaviour of `_call_transition` after the service responded:
which of the three print statements on source lines 224-232 runs. -/
inductive CallOutcome where
  | loggedException (msg : String)
  | loggedSuccess
  | loggedFailure
deriving DecidableEq, Repr

instance {ε α : Type} [DecidableEq ε] [DecidableEq α] :
    DecidableEq (Except ε α) := fun x y =>
  match x, y with
  | Except.ok a, Except.ok b =>
      if h : a = b then isTrue (by rw [h])
      else isFalse fun hc => h (Except.ok.inj hc)
  | Except.error a, Except.error b =>
      if h : a = b then isTrue (by rw [h])
      else isFalse fun hc => h (Except.error.inj hc)
  | Except.ok _, Except.error _ => isFalse fun hc => Except.noConfusion hc
  | Except.error _, Except.ok _ => isFalse fun hc => Except.noConfusion hc

/-- Lines 220-232 of `_call_transition`, applied to the mapping returned by
`call_change_states`: `results[node_name]` raises `KeyError` when the name
is absent from the mapping (modelled as `Except.error`); otherwise the
entry is classified and the corresponding message is printed. -/
def call_transition (results : List (String × ChangeResult))
    (node_name : String) : Except String CallOutcome :=
  match results.lookup node_name with
  | none => Except.error (String.append "KeyError: " node_name)
  | some (ChangeResult.exc m) => Except.ok (CallOutcome.loggedException m)
  | some (ChangeResult.ret true) => Except.ok CallOutcome.loggedSuccess
  | some (ChangeResult.ret false) => Except.ok CallOutcome.loggedFailure

/-- Consecutive `_call_transition` invocations as the menu handler performs
them (e.g. source lines 210-212): one `call_change_states` service call is
issued per label, in order, and the outcome of an earlier step is never
consulted before issuing the next. -/
def run_transitions (oracle : String → String → List (String × ChangeResult))
    (node : String) (labels : List String) :
    List (String × Except String CallOutcome) :=
  labels.map fun l => (l, call_transition (oracle node l) node)

/-- Number of `call_change_states` service invocations `run_transitions`
issues: exactly one per label in the sequence. -/
def service_call_count (oracle : String → String → List (String × ChangeResult))
    (node : String) (labels : List String) : Nat :=
  (run_transitions oracle node labels).length

/-- The context-menu actions the handler can receive back from
`menu.exec_` (source lines 171-187); `Option.none` models the menu being
dismissed without a choice. -/
inductive MenuAction where
  | deactivate
  | unspawn
  | shutdown
  | activate
  | cleanup
  | configure
  | spawn
deriving DecidableEq, Repr

/-- Branch of the action evaluation for a row in state "active" (source
lines 190-197): Deactivate, Shutdown, or Deactivate-and-cleanup. -/
def menu_dispatch_active (name : String) :
    Option MenuAction → List (String × String)
  | some MenuAction.deactivate => [(name, "deactivate")]
  | some MenuAction.shutdown => [(name, "shutdown")]
  | some MenuAction.unspawn => [(name, "deactivate"), (name, "cleanup")]
  | _ => []

/-- Branch of the action evaluation for a row in state "inactive" (source
lines 198-204): Activate, Cleanup, or Shutdown. -/
def menu_dispatch_inactive (name : String) :
    Option MenuAction → List (String × String)
  | some MenuAction.activate => [(name, "activate")]
  | some MenuAction.cleanup => [(name, "cleanup")]
  | some MenuAction.shutdown => [(name, "shutdown")]
  | _ => []

/-- Branch of the action evaluation for a row in state "unconfigured"
(source lines 205-212): Configure, Shutdown, or Configure-and-Activate. -/
def menu_dispatch_unconfigured (name : String) :
    Option MenuAction → List (String × String)
  | some MenuAction.configure => [(name, "configure")]
  | some MenuAction.shutdown => [(name, "shutdown")]
  | some MenuAction.spawn => [(name, "configure"), (name, "activate")]
  | _ => []

/-- Evaluation of the chosen action (source lines 189-214): the list of
`(node name, transition label)` pairs passed to `_call_transition`, in
order.  Because `menu.exec_` can only return an action object added for
the row's state branch, an action from a different branch falls through to
the empty list, exactly as the identity comparisons in the source do. -/
def menu_dispatch (lc_node : NodeState) (action : Option MenuAction) :
    List (String × String) :=
  if lc_node.state = "active" then menu_dispatch_active lc_node.name action
  else if lc_node.state = "inactive" then
    menu_dispatch_inactive lc_node.name action
  else if lc_node.state = "unconfigured" then
    menu_dispatch_unconfigured lc_node.name action
  else []

/-- The whole of `_on_lc_node_menu` (source lines 162-214): return early
when the cursor is not over a valid row, otherwise look the row up in
`_lc_nodes` and evaluate the chosen action.  The result is the list of
transition invocations issued together with the (unchanged) member state;
the handler never writes `_lc_node_names` or `_lc_nodes`. -/
def on_lc_node_menu (s : ManagerState) (row : Int)
    (action : Option MenuAction) : List (String × String) × ManagerState :=
  if row < 0 then ([], s)
  else
    match s.lc_nodes[row.toNat]? with
    | none => ([], s)
    | some lc_node => (menu_dispatch lc_node action, s)

/-- The `_icons` mapping built in `LifecycleManager.__init__` (source lines
76-81), keyed by state label; values name the icon resource files. -/
def icons : List (String × String) :=
  [("active", "led_green.png"), ("finalized", "led_off.png"),
   ("inactive", "led_red.png"), ("unconfigured", "led_off.png")]

/-- Python's `s or d` for strings: `d` when `s` is falsy (empty). -/
def py_str_or (s d : String) : String := if s = "" then d else s

/-- The `Qt.DisplayRole` branch of `LifecycleNodeTable.data` (source lines
267-271): column 0 shows the node name, column 1 shows
`lc_node.state or "not loaded"`. -/
def data_display (lc_node : NodeState) (column : Nat) : Option String :=
  if column = 0 then some lc_node.name
  else if column = 1 then some (py_str_or lc_node.state "not loaded")
  else none

/-- The `Qt.DecorationRole` branch of `LifecycleNodeTable.data` (source
lines 273-274): column 0 carries `self._icons.get(lc_node.state)`, which
is `None` when the state label has no entry in the icon mapping. -/
def data_decoration (lc_node : NodeState) (column : Nat) : Option String :=
  if column = 0 then icons.lookup lc_node.state
  else none

/-- The `Qt.FontRole` branch of `LifecycleNodeTable.data` (source lines
276-279): a bold font is returned exactly for column 0. -/
def data_font_bold (column : Nat) : Bool := column = 0

/-- The `Qt.TextAlignmentRole` branch of `LifecycleNodeTable.data` (source
lines 281-282): centered alignment is returned exactly for column 1. -/
def data_align_center (column : Nat) : Bool := column = 1

/-! Helper lemmas shared by several claim proofs. -/

/-- A single-name state query produces one row on success (carrying the
state's label) and no row when the query returned an exception. -/
theorem states_for_node_eq (q : String → LcResult) (n : String) :
    states_for_node q n =
      match q n with
      | LcResult.state l => [⟨n, l⟩]
      | LcResult.exc _ => [] := by
  cases h : q n with
  | exc m =>
    simp [states_for_node, call_get_states, append_current_states,
      delete_exceptions, sorted_keys, pySorted, h, LcResult.isState]
  | state l =>
    simp [states_for_node, call_get_states, append_current_states,
      delete_exceptions, sorted_keys, pySorted, h, LcResult.isState,
      List.insertionSort, List.orderedInsert, List.lookup]

/-- The rebuilt `_lc_nodes` list keeps, in order, exactly the names whose
state query succeeded, each paired with the returned label. -/
theorem update_nodes_state_eq (q : String → LcResult) (names : List String) :
    update_nodes_state q names =
      names.filterMap fun n =>
        match q n with
        | LcResult.state l => some ⟨n, l⟩
        | LcResult.exc _ => none := by
  induction names with
  | nil => rfl
  | cons a as ih =>
    simp only [update_nodes_state, List.flatMap_cons, List.filterMap_cons] at *
    cases h : q a with
    | exc m => simp [states_for_node_eq, h, ih]
    | state l => simp [states_for_node_eq, h, ih]

/-- Names of the rebuilt row list: exactly the polled names whose state
query succeeded, in poll order. -/
theorem update_nodes_state_names (q : String → LcResult) (names : List String) :
    (update_nodes_state q names).map NodeState.name =
      names.filter fun n => (q n).isState := by
  induction names with
  | nil => rfl
  | cons a as ih =>
    rw [update_nodes_state_eq] at *
    cases h : q a with
    | exc m => simp [List.filterMap_cons, List.filter_cons, h, LcResult.isState, ih]
    | state l => simp [List.filterMap_cons, List.filter_cons, h, LcResult.isState, ih]

/-- Dismissing the context menu without choosing an action issues no
transition call, whatever the row's state. -/
theorem menu_dispatch_none (lc_node : NodeState) :
    menu_dispatch lc_node none = [] := by
  unfold menu_dispatch
  split_ifs <;> rfl

/-- For a row whose state is none of active, inactive or unconfigured
(e.g. finalized), every menu outcome issues no transition call. -/
theorem menu_dispatch_other (lc_node : NodeState) (a : Option MenuAction)
    (h1 : lc_node.state ≠ "active") (h2 : lc_node.state ≠ "inactive")
    (h3 : lc_node.state ≠ "unconfigured") :
    menu_dispatch lc_node a = [] := by
  unfold menu_dispatch
  split_ifs <;> first | rfl | contradiction

/-- Totality of the lexicographic code-point comparison. -/
theorem charListLe_total : ∀ x y : List Char,
    charListLe x y = true ∨ charListLe y x = true := by
  intro x
  induction x with
  | nil => intro y; left; rfl
  | cons a as ih =>
    intro y
    cases y with
    | nil => right; rfl
    | cons b bs =>
      rcases Nat.lt_trichotomy a.toNat b.toNat with h | h | h
      · left; simp [charListLe, h]
      · have h1 : ¬ a.toNat < b.toNat := by omega
        have h2 : ¬ b.toNat < a.toNat := by omega
        rcases ih bs with hc | hc
        · left; simp [charListLe, h1, h2, h, hc]
        · right; simp [charListLe, h1, h2, h.symm, hc]
      · right; simp [charListLe, h]

/-- Transitivity of the lexicographic code-point comparison. -/
theorem charListLe_trans : ∀ x y z : List Char,
    charListLe x y = true → charListLe y z = true → charListLe x z = true := by
  intro x
  induction x with
  | nil => intro y z _ _; rfl
  | cons a as ih =>
    intro y z h1 h2
    cases y with
    | nil => simp [charListLe] at h1
    | cons b bs =>
      cases z with
      | nil => simp [charListLe] at h2
      | cons c cs =>
        simp only [charListLe] at h1 h2 ⊢
        split_ifs at h1 h2 ⊢ with hab hba hbc hcb hac hca
        all_goals first | rfl | omega | (exact ih bs cs h1 h2)

instance : IsTotal String pyLe :=
  ⟨fun a b => charListLe_total a.data b.data⟩

instance : IsTrans String pyLe :=
  ⟨fun a b c h1 h2 => charListLe_trans a.data b.data c.data h1 h2⟩

/-- Mapping each kept row back to its name yields a sublist of the key
list whenever the row builder keeps the key as the name. -/
theorem filterMap_name_sublist (keys : List String) (f : String → Option NodeState)
    (hf : ∀ n r, f n = some r → r.name = n) :
    ((keys.filterMap f).map NodeState.name).Sublist keys := by
  induction keys with
  | nil => simp
  | cons a as ih =>
    cases h : f a with
    | none =>
      rw [List.filterMap_cons, h]
      exact ih.cons a
    | some r =>
      rw [List.filterMap_cons, h, List.map_cons, hf a r h]
      exact ih.cons₂ a

/-! Claim theorems. -/

/-- Claim C1, counterexample.  With the combined 'Configure and Activate'
menu action for node n (so the dispatched sequence is
[configure, activate]) and a remote service whose configure call reports
failure, the transition service is invoked twice, not once, and the
activate step does appear among the executed steps — contrary to the
claim that "the activate step is never attempted: the transition service
is invoked exactly once". -/
theorem C1_counterexample :
    menu_dispatch ⟨"n", "unconfigured"⟩ (some MenuAction.spawn) =
        [("n", "configure"), ("n", "activate")] ∧
    call_transition [("n", ChangeResult.ret false)] "n" =
        Except.ok CallOutcome.loggedFailure ∧
    ¬ (service_call_count (fun _ _ => [("n", ChangeResult.ret false)]) "n"
          ["configure", "activate"] = 1 ∧
        "activate" ∉ (run_transitions (fun _ _ => [("n", ChangeResult.ret false)])
          "n" ["configure", "activate"]).map Prod.fst) := by
  refine ⟨by decide, by decide, ?_⟩
  intro h
  exact absurd h.1 (by decide)

/-- Claim C1, amended.  When the operator selects 'Configure and Activate'
the handler dispatches [configure, activate], and even when the remote
configure call reports failure the code still issues the activate call:
the transition service is invoked exactly twice (once per step), the
configure failure is only logged, and the activate step's outcome is
whatever the service answers for it. -/
theorem C1_holds (oracle : String → String → List (String × ChangeResult))
    (n : String)
    (h : call_transition (oracle n "configure") n =
      Except.ok CallOutcome.loggedFailure) :
    menu_dispatch ⟨n, "unconfigured"⟩ (some MenuAction.spawn) =
        [(n, "configure"), (n, "activate")] ∧
    service_call_count oracle n ["configure", "activate"] = 2 ∧
    run_transitions oracle n ["configure", "activate"] =
        [("configure", Except.ok CallOutcome.loggedFailure),
         ("activate", call_transition (oracle n "activate") n)] := by
  refine ⟨rfl, rfl, ?_⟩
  simp [run_transitions, h]

/-- Claim C1, witness for the amended theorem at a concrete failing
configure call. -/
theorem C1_witness :
    call_transition ((fun _ _ => [("n", ChangeResult.ret false)]) "n" "configure") "n" =
        Except.ok CallOutcome.loggedFailure ∧
    (menu_dispatch ⟨"n", "unconfigured"⟩ (some MenuAction.spawn) =
        [("n", "configure"), ("n", "activate")] ∧
      service_call_count (fun _ _ => [("n", ChangeResult.ret false)]) "n"
        ["configure", "activate"] = 2 ∧
      run_transitions (fun _ _ => [("n", ChangeResult.ret false)]) "n"
        ["configure", "activate"] =
        [("configure", Except.ok CallOutcome.loggedFailure),
         ("activate", call_transition
            ((fun _ _ => [("n", ChangeResult.ret false)]) "n" "activate") "n")]) :=
  ⟨by decide, C1_holds (fun _ _ => [("n", ChangeResult.ret false)]) "n" (by decide)⟩

/-- Claim C2, counterexample.  The code has no submit-time legality check
and no IllegalTransitionError: executing a request whose first (and only)
transition is activate for a node whose last-known registry state is
unconfigured contacts the transition service once, refuting "must not
invoke the transition service". -/
theorem C2_counterexample :
    (ManagerState.mk ["n"] [⟨"n", "unconfigured"⟩]).lc_nodes =
        [⟨"n", "unconfigured"⟩] ∧
    service_call_count (fun _ _ => [("n", ChangeResult.ret true)]) "n"
        ["activate"] = 1 ∧
    ¬ service_call_count (fun _ _ => [("n", ChangeResult.ret true)]) "n"
        ["activate"] = 0 := by
  refine ⟨rfl, rfl, by decide⟩

/-- Claim C2, amended.  The context menu built for a node whose last-known
state is unconfigured offers only Configure, Shutdown and Configure-and-
Activate, so no dispatched sequence ever begins with activate (the
stale-state protection is purely structural); but the transition layer
performs no legality check of its own — executing [activate] always
issues exactly one transition-service call, and no IllegalTransitionError
exists anywhere in the code. -/
theorem C2_holds (n : String) (a : Option MenuAction)
    (oracle : String → String → List (String × ChangeResult)) :
    ((menu_dispatch ⟨n, "unconfigured"⟩ a).map Prod.snd).headD "" ∈
        (["", "configure", "shutdown"] : List String) ∧
    service_call_count oracle n ["activate"] = 1 := by
  refine ⟨?_, rfl⟩
  have he : menu_dispatch ⟨n, "unconfigured"⟩ a =
      menu_dispatch_unconfigured n a := rfl
  rw [he]
  rcases a with _ | act
  · simp [menu_dispatch_unconfigured]
  · cases act <;> simp [menu_dispatch_unconfigured]

/-- Claim C3, counterexample.  After a successful poll returning
["a", "b"], three consecutive failing directory polls leave the display
snapshot empty — the previous known set is NOT retained, contrary to the
claim (though no exception escapes: the failing polls are total). -/
theorem C3_counterexample :
    (update_node_list (Except.ok ["a", "b"]) (fun _ => LcResult.state "active")
        ⟨[], []⟩) =
      ⟨["a", "b"], [⟨"a", "active"⟩, ⟨"b", "active"⟩]⟩ ∧
    (update_node_list (Except.error "err3") (fun _ => LcResult.state "active")
        (update_node_list (Except.error "err2") (fun _ => LcResult.state "active")
          (update_node_list (Except.error "err1") (fun _ => LcResult.state "active")
            (update_node_list (Except.ok ["a", "b"])
              (fun _ => LcResult.state "active") ⟨[], []⟩)))) =
      ⟨[], []⟩ := by
  constructor <;> rfl

/-- Claim C3, amended.  A directory-poll failure is caught inside the
polling step (the handler is total: it returns the empty list, so no
DiscoveryError escapes), but the empty list then replaces the previous
known set: whenever the previous set was non-empty, the snapshot after the
failing poll is empty rather than retaining the last-known nodes. -/
theorem C3_holds (e : String) (q : String → LcResult) (s : ManagerState)
    (h : s.lc_node_names ≠ []) :
    list_lc_nodes (Except.error e) = [] ∧
    (update_node_list (Except.error e) q s).lc_node_names = [] ∧
    (update_node_list (Except.error e) q s).lc_nodes = [] := by
  refine ⟨rfl, ?_, ?_⟩ <;>
    simp [update_node_list, list_lc_nodes, h, update_nodes_state]

/-- Claim C3, witness for the amended theorem at a concrete two-node
previous state. -/
theorem C3_witness :
    (ManagerState.mk ["a", "b"] [⟨"a", "active"⟩, ⟨"b", "active"⟩]).lc_node_names ≠ [] ∧
    (list_lc_nodes (Except.error "down") = [] ∧
      (update_node_list (Except.error "down") (fun _ => LcResult.state "active")
        ⟨["a", "b"], [⟨"a", "active"⟩, ⟨"b", "active"⟩]⟩).lc_node_names = [] ∧
      (update_node_list (Except.error "down") (fun _ => LcResult.state "active")
        ⟨["a", "b"], [⟨"a", "active"⟩, ⟨"b", "active"⟩]⟩).lc_nodes = []) :=
  ⟨by decide, C3_holds "down" (fun _ => LcResult.state "active")
    ⟨["a", "b"], [⟨"a", "active"⟩, ⟨"b", "active"⟩]⟩ (by decide)⟩

/-- Claim C4, counterexample.  When the state query for the only
registered name "N" returns an exception, the rebuilt row list is empty:
"N" is dropped from the display entirely (after a stderr log), rather than
kept with its previous state or shown as Unknown, contrary to the claim
that "N is never silently dropped". -/
theorem C4_counterexample :
    update_nodes_state (fun _ => LcResult.exc "service down") ["N"] = [] ∧
    (update_nodes_state (fun _ => LcResult.exc "service down") ["N"]).map
        NodeState.name = [] := by
  constructor <;> rfl

/-- Claim C4, amended.  Applying the poll results rebuilds the row list
from scratch: a name whose query succeeded gets a row carrying exactly the
returned label (so successful updates are unaffected by other names'
failures), and a name whose query returned an error is omitted from the
rows altogether — it is logged and dropped, not retained and not shown as
Unknown. -/
theorem C4_holds (q : String → LcResult) (names : List String) :
    update_nodes_state q names =
      names.filterMap fun n =>
        match q n with
        | LcResult.state l => some ⟨n, l⟩
        | LcResult.exc _ => none :=
  update_nodes_state_eq q names

/-- Claim C5, counterexample.  Directory poll k returns ["a"] but the state
query for "a" fails: the snapshot after the poll has no row at all, so it
does not contain exactly the names returned by poll k. -/
theorem C5_counterexample :
    (update_node_list (Except.ok ["a"]) (fun _ => LcResult.exc "boom")
        ⟨[], []⟩).lc_node_names = ["a"] ∧
    (update_node_list (Except.ok ["a"]) (fun _ => LcResult.exc "boom")
        ⟨[], []⟩).lc_nodes = [] := by
  constructor <;> rfl

/-- Claim C5, amended.  After a successful directory poll that changes the
name list, the stored name list is exactly the polled list, and the
display rows contain exactly those polled names whose state query
succeeded, in poll order — no phantom names are added, but names whose
query failed are missing from the rows. -/
theorem C5_holds (ns : List String) (q : String → LcResult)
    (s : ManagerState) (h : s.lc_node_names ≠ ns) :
    (update_node_list (Except.ok ns) q s).lc_node_names = ns ∧
    (update_node_list (Except.ok ns) q s).lc_nodes.map NodeState.name =
      ns.filter fun n => (q n).isState := by
  refine ⟨?_, ?_⟩ <;>
    simp [update_node_list, list_lc_nodes, h, update_nodes_state_names]

/-- Claim C5, witness for the amended theorem at a concrete poll. -/
theorem C5_witness :
    (ManagerState.mk [] []).lc_node_names ≠ ["a"] ∧
    ((update_node_list (Except.ok ["a"]) (fun _ => LcResult.state "inactive")
        ⟨[], []⟩).lc_node_names = ["a"] ∧
      (update_node_list (Except.ok ["a"]) (fun _ => LcResult.state "inactive")
        ⟨[], []⟩).lc_nodes.map NodeState.name =
        (["a"].filter fun n => ((fun _ => LcResult.state "inactive") n).isState)) :=
  ⟨by decide, C5_holds ["a"] (fun _ => LcResult.state "inactive") ⟨[], []⟩ (by decide)⟩

/-- Claim C6, counterexample.  A transition-service response in which the
requested node name is absent from the result mapping makes the handler
raise an uncaught KeyError (the subscript on source line 221), refuting
"the transition-call handler terminates normally for every response". -/
theorem C6_counterexample :
    call_transition [] "n" = Except.error "KeyError: n" ∧
    call_transition [("other", ChangeResult.ret true)] "n" =
        Except.error "KeyError: n" ∧
    ¬ (call_transition [] "n").isOk = true := by
  refine ⟨rfl, rfl, by decide⟩

/-- Claim C6, amended.  The handler terminates normally exactly when the
requested node name is present in the response mapping: a present entry —
even an exception object or a failure flag — degrades to a logged outcome,
while an absent name raises an uncaught KeyError. -/
theorem C6_holds (results : List (String × ChangeResult)) (n : String) :
    (call_transition results n).isOk = (results.lookup n).isSome ∧
    (∀ m, results.lookup n = some (ChangeResult.exc m) →
      call_transition results n = Except.ok (CallOutcome.loggedException m)) ∧
    (results.lookup n = some (ChangeResult.ret false) →
      call_transition results n = Except.ok CallOutcome.loggedFailure) := by
  refine ⟨?_, ?_, ?_⟩
  · cases h : results.lookup n with
    | none => simp [call_transition, h, Except.isOk, Except.toBool]
    | some v =>
      cases v with
      | exc m => simp [call_transition, h, Except.isOk, Except.toBool]
      | ret b => cases b <;> simp [call_transition, h, Except.isOk, Except.toBool]
  · intro m hm
    simp [call_transition, hm]
  · intro hm
    simp [call_transition, hm]

/-- Claim C6, witness: the amended theorem applied to a concrete response
carrying an exception entry for the requested name. -/
theorem C6_witness :
    (call_transition [("n", ChangeResult.exc "E")] "n").isOk =
        ([("n", ChangeResult.exc "E")].lookup "n").isSome ∧
    call_transition [("n", ChangeResult.exc "E")] "n" =
        Except.ok (CallOutcome.loggedException "E") :=
  ⟨(C6_holds [("n", ChangeResult.exc "E")] "n").1,
   (C6_holds [("n", ChangeResult.exc "E")] "n").2.1 "E" (by decide)⟩

/-- Lookup in the icon mapping succeeds exactly for the four state labels
present in `_icons`; in particular there is no icon for "unknown". -/
theorem icons_lookup_isSome (s : String) :
    (icons.lookup s).isSome ↔
      s ∈ (["active", "finalized", "inactive", "unconfigured"] : List String) := by
  by_cases h1 : s = "active"
  · subst h1; decide
  by_cases h2 : s = "finalized"
  · subst h2; decide
  by_cases h3 : s = "inactive"
  · subst h3; decide
  by_cases h4 : s = "unconfigured"
  · subst h4; decide
  have b1 : (s == "active") = false := beq_eq_false_iff_ne.mpr h1
  have b2 : (s == "finalized") = false := beq_eq_false_iff_ne.mpr h2
  have b3 : (s == "inactive") = false := beq_eq_false_iff_ne.mpr h3
  have b4 : (s == "unconfigured") = false := beq_eq_false_iff_ne.mpr h4
  simp [icons, List.lookup, b1, b2, b3, b4, h1, h2, h3, h4]

/-- Claim C7, counterexample.  A row whose state label is "unknown" gets
no status icon (the icon mapping has only four keys), and its state cell
shows the literal "unknown", not "not loaded" — refuting both "an icon
available for each of the states ... and unknown" and "'not loaded'
exactly when the state is Unknown". -/
theorem C7_counterexample :
    data_decoration ⟨"talker", "unknown"⟩ 0 = none ∧
    data_display ⟨"talker", "unknown"⟩ 1 = some "unknown" ∧
    ¬ data_display ⟨"talker", "unknown"⟩ 1 = some "not loaded" := by
  refine ⟨rfl, rfl, by decide⟩

/-- Claim C7, amended.  Column 0 displays the node name in bold; column 1
is centered and displays the state string itself, falling back to the
literal "not loaded" exactly when the state string is empty (Python
falsiness), not when it reads "unknown"; and a status icon exists exactly
for the four labels active, finalized, inactive and unconfigured — a row
in any other state, "unknown" included, is rendered without an icon. -/
theorem C7_holds (row : NodeState) :
    data_display row 0 = some row.name ∧
    data_display row 1 =
        some (if row.state = "" then "not loaded" else row.state) ∧
    data_font_bold 0 = true ∧
    data_align_center 1 = true ∧
    ((data_decoration row 0).isSome ↔
      row.state ∈ (["active", "finalized", "inactive", "unconfigured"] :
        List String)) := by
  refine ⟨rfl, ?_, rfl, rfl, ?_⟩
  · simp [data_display, py_str_or]
  · exact icons_lookup_isSome row.state

/-- Claim C9.  The context-menu handler is effect-free in all the
early-exit situations: it never modifies the node list or any node's
recorded state (the returned member state is always unchanged), and it
issues no transition call when the cursor is not over a valid row, when
the menu is dismissed without a choice, or when the selected row's state
is neither "active" nor "inactive" nor "unconfigured" (e.g. "finalized"). -/
theorem C9_holds (s : ManagerState) (row : Int) (action : Option MenuAction) :
    (on_lc_node_menu s row action).2 = s ∧
    (row < 0 → on_lc_node_menu s row action = ([], s)) ∧
    on_lc_node_menu s row none = ([], s) ∧
    (∀ lc_node, s.lc_nodes[row.toNat]? = some lc_node →
      lc_node.state ≠ "active" → lc_node.state ≠ "inactive" →
      lc_node.state ≠ "unconfigured" →
      on_lc_node_menu s row action = ([], s)) := by
  refine ⟨?_, ?_, ?_, ?_⟩
  · unfold on_lc_node_menu
    split_ifs with hr
    · rfl
    · cases hx : s.lc_nodes[row.toNat]? <;> simp [hx]
  · intro h
    simp [on_lc_node_menu, h]
  · unfold on_lc_node_menu
    split_ifs with hr
    · rfl
    · cases hx : s.lc_nodes[row.toNat]? with
      | none => simp [hx]
      | some lc_node => simp [hx, menu_dispatch_none]
  · intro lc_node hx h1 h2 h3
    unfold on_lc_node_menu
    split_ifs with hr
    · rfl
    · simp [hx, menu_dispatch_other lc_node action h1 h2 h3]

/-- Claim C9, witness: a concrete finalized row with a chosen action
yields no transition call and leaves the state unchanged. -/
theorem C9_witness :
    on_lc_node_menu ⟨["n"], [⟨"n", "finalized"⟩]⟩ 0 (some MenuAction.shutdown) =
      ([], ⟨["n"], [⟨"n", "finalized"⟩]⟩) :=
  (C9_holds ⟨["n"], [⟨"n", "finalized"⟩]⟩ 0 (some MenuAction.shutdown)).2.2.2
    ⟨"n", "finalized"⟩ (by decide) (by decide) (by decide) (by decide)

/-- Claim C10.  Every row ever handed to the table model carries as its
state the label of a successfully queried lifecycle state (exception
results having been removed before rows are built), and within each query
batch the surviving names are appended in Python sorted order. -/
theorem C10_holds (q : String → LcResult) (names : List String)
    (states : List (String × LcResult)) :
    (∀ r, r ∈ update_nodes_state q names →
      q r.name = LcResult.state r.state) ∧
    List.Sorted pyLe ((append_current_states states).map NodeState.name) := by
  constructor
  · intro r hr
    rw [update_nodes_state_eq] at hr
    rcases List.mem_filterMap.mp hr with ⟨n, _, hf⟩
    cases h : q n with
    | exc m => rw [h] at hf; cases hf
    | state l =>
      rw [h] at hf
      injection hf with hf
      subst hf
      exact h
  · have hsub : ((append_current_states states).map NodeState.name).Sublist
        (sorted_keys (delete_exceptions states)) := by
      unfold append_current_states
      apply filterMap_name_sublist
      intro n r hf
      cases hl : (delete_exceptions states).lookup n with
      | none => rw [hl] at hf; cases hf
      | some v =>
        cases v with
        | exc m => rw [hl] at hf; cases hf
        | state l =>
          rw [hl] at hf
          injection hf with hf
          subst hf
          rfl
    have hsorted : List.Sorted pyLe (sorted_keys (delete_exceptions states)) :=
      List.sorted_insertionSort pyLe ((delete_exceptions states).map Prod.fst)
    exact List.Pairwise.sublist hsub hsorted

/-- Claim C10, witness: the theorem applied to a concrete successful
query and a concrete two-entry batch. -/
theorem C10_witness :
    (fun _ => LcResult.state "active") "a" = LcResult.state "active" ∧
    List.Sorted pyLe ((append_current_states
        [("b", LcResult.state "x"), ("a", LcResult.state "y")]).map
        NodeState.name) :=
  ⟨(C10_holds (fun _ => LcResult.state "active") ["a"]
      [("b", LcResult.state "x"), ("a", LcResult.state "y")]).1
        ⟨"a", "active"⟩ (by decide),
   (C10_holds (fun _ => LcResult.state "active") ["a"]
      [("b", LcResult.state "x"), ("a", LcResult.state "y")]).2⟩
